import Mathlib

/-!
Shallow embedding of the buy-vs-rent simulator (`app.py`).

The two simulation engines `simulate_buy_scenario` and `simulate_rent_scenario`
advance a monthly financial state; monetary quantities are modelled as real
numbers.  History lists are built exactly as the source appends them, one
snapshot per month, and the stop-month logic carries an `Option ℕ` just as the
source carries `stop_month = None`.
-/

namespace BuyVsRent

/-- Configuration record for `simulate_buy_scenario`: the parameters of the
function in `app.py`, lines 9–13. -/
structure BuyConfig where
  initial_savings : ℝ
  monthly_income : ℝ
  monthly_expenses : ℝ
  annual_income_growth : ℝ
  annual_inflation_rate : ℝ
  annual_invest_return : ℝ
  property_price : ℝ
  mortgage_term_years : ℝ
  mortgage_interest_rate : ℝ
  deposit_fraction : ℝ
  owner_cost_initial : ℝ
  annual_owner_cost_inflation : ℝ
  annual_house_price_growth : ℝ
  max_months : ℕ

/-- Configuration record for `simulate_rent_scenario` (`app.py`, lines 100–103). -/
structure RentConfig where
  initial_savings : ℝ
  monthly_income : ℝ
  monthly_expenses : ℝ
  annual_income_growth : ℝ
  annual_inflation_rate : ℝ
  annual_invest_return : ℝ
  property_price : ℝ
  monthly_rent : ℝ
  annual_rent_inflation_rate : ℝ
  annual_house_price_growth : ℝ
  max_months : ℕ

/-- Source line 36: `mi_growth = (1 + annual_income_growth) ** (1 / 12)`. -/
noncomputable def BuyConfig.mi_growth (c : BuyConfig) : ℝ :=
  (1 + c.annual_income_growth) ^ ((1 : ℝ) / 12)

/-- Source line 37: `me_growth = (1 + annual_inflation_rate) ** (1 / 12)`. -/
noncomputable def BuyConfig.me_growth (c : BuyConfig) : ℝ :=
  (1 + c.annual_inflation_rate) ^ ((1 : ℝ) / 12)

/-- Source line 38: `mi_return = (1 + annual_invest_return) ** (1 / 12)`. -/
noncomputable def BuyConfig.mi_return (c : BuyConfig) : ℝ :=
  (1 + c.annual_invest_return) ^ ((1 : ℝ) / 12)

/-- Source line 39: `m_interest = mortgage_interest_rate / 12`. -/
noncomputable def BuyConfig.m_interest (c : BuyConfig) : ℝ :=
  c.mortgage_interest_rate / 12

/-- Source line 40: `moc_growth = (1 + annual_owner_cost_inflation) ** (1 / 12)`. -/
noncomputable def BuyConfig.moc_growth (c : BuyConfig) : ℝ :=
  (1 + c.annual_owner_cost_inflation) ^ ((1 : ℝ) / 12)

/-- Source line 41: `mhp_growth = (1 + annual_house_price_growth) ** (1 / 12)`. -/
noncomputable def BuyConfig.mhp_growth (c : BuyConfig) : ℝ :=
  (1 + c.annual_house_price_growth) ^ ((1 : ℝ) / 12)

/-- Source line 44: `deposit_amount = deposit_fraction * property_price`. -/
noncomputable def BuyConfig.deposit_amount (c : BuyConfig) : ℝ :=
  c.deposit_fraction * c.property_price

/-- Source line 51: `outstanding_mortgage = property_price * (1 - deposit_fraction)`;
assigned once before the loop and never reassigned. -/
noncomputable def BuyConfig.outstanding_mortgage (c : BuyConfig) : ℝ :=
  c.property_price * (1 - c.deposit_fraction)

/-- The mutable state of the buy-scenario loop together with the history
lists the loop appends to (lines 50–69 of `app.py`). -/
structure BuyState where
  investment_portfolio : ℝ
  current_income : ℝ
  current_expenses : ℝ
  current_owner_cost : ℝ
  current_house_price : ℝ
  cumulative_spent : ℝ
  stop_month : Option ℕ
  months : List ℕ
  house_price_hist : List ℝ
  investment_portfolio_hist : List ℝ
  net_wealth_hist : List ℝ
  cumulative_spent_hist : List ℝ

/-- Initial buy-scenario state (lines 50–69): portfolio starts after paying the
deposit, cumulative spent starts with the deposit, histories empty. -/
noncomputable def buyInit (c : BuyConfig) : BuyState where
  investment_portfolio := c.initial_savings - c.deposit_amount
  current_income := c.monthly_income
  current_expenses := c.monthly_expenses
  current_owner_cost := c.owner_cost_initial
  current_house_price := c.property_price
  cumulative_spent := c.deposit_amount
  stop_month := none
  months := []
  house_price_hist := []
  investment_portfolio_hist := []
  net_wealth_hist := []
  cumulative_spent_hist := []

/-- One iteration of the `for month in range(max_months)` loop of
`simulate_buy_scenario` (lines 71–96), in the source's exact order:
snapshot, stop-month check, interest, clamped disposable, cumulative spend,
then the portfolio update and the growth multipliers. -/
noncomputable def buyMonth (c : BuyConfig) (s : BuyState) (month : ℕ) : BuyState :=
  let net_wealth := (s.current_house_price - c.outstanding_mortgage) + s.investment_portfolio
  let stop_month' :=
    if s.stop_month = none ∧ s.investment_portfolio ≥ c.outstanding_mortgage then some month
    else s.stop_month
  let interest_payment := c.outstanding_mortgage * c.m_interest
  let d := s.current_income - s.current_expenses - interest_payment - s.current_owner_cost
  let monthly_disposable := if d < 0 then 0 else d
  { investment_portfolio := s.investment_portfolio * c.mi_return + monthly_disposable
    current_income := s.current_income * c.mi_growth
    current_expenses := s.current_expenses * c.me_growth
    current_owner_cost := s.current_owner_cost * c.moc_growth
    current_house_price := s.current_house_price * c.mhp_growth
    cumulative_spent := s.cumulative_spent + (interest_payment + s.current_owner_cost)
    stop_month := stop_month'
    months := s.months ++ [month]
    house_price_hist := s.house_price_hist ++ [s.current_house_price]
    investment_portfolio_hist := s.investment_portfolio_hist ++ [s.investment_portfolio]
    net_wealth_hist := s.net_wealth_hist ++ [net_wealth]
    cumulative_spent_hist := s.cumulative_spent_hist ++ [s.cumulative_spent] }

/-- The buy-scenario loop run for the first `n` months. -/
noncomputable def buyRunUpTo (c : BuyConfig) (n : ℕ) : BuyState :=
  (List.range n).foldl (buyMonth c) (buyInit c)

/-- The full buy-scenario loop (`for month in range(max_months)`). -/
noncomputable def buyRun (c : BuyConfig) : BuyState :=
  buyRunUpTo c c.max_months

/-- The function `simulate_buy_scenario` (lines 9–98): if initial savings are below the
required deposit the function reports the error and returns `None, None, None`
(modelled as `none`); otherwise it runs the loop and returns
`stop_month, investment_portfolio, history`. -/
noncomputable def simulate_buy_scenario (c : BuyConfig) :
    Option (Option ℕ × ℝ × BuyState) :=
  if c.initial_savings < c.deposit_amount then none
  else some ((buyRun c).stop_month, (buyRun c).investment_portfolio, buyRun c)

/-- Multiplier `mi_growth` of the rent scenario (line 124). -/
noncomputable def RentConfig.mi_growth (c : RentConfig) : ℝ :=
  (1 + c.annual_income_growth) ^ ((1 : ℝ) / 12)

/-- Multiplier `me_growth` of the rent scenario (line 125). -/
noncomputable def RentConfig.me_growth (c : RentConfig) : ℝ :=
  (1 + c.annual_inflation_rate) ^ ((1 : ℝ) / 12)

/-- Multiplier `mi_return` of the rent scenario (line 126). -/
noncomputable def RentConfig.mi_return (c : RentConfig) : ℝ :=
  (1 + c.annual_invest_return) ^ ((1 : ℝ) / 12)

/-- Source line 127: `mr_growth = (1 + annual_rent_inflation_rate) ** (1 / 12)`. -/
noncomputable def RentConfig.mr_growth (c : RentConfig) : ℝ :=
  (1 + c.annual_rent_inflation_rate) ^ ((1 : ℝ) / 12)

/-- Multiplier `mhp_growth` of the rent scenario (line 128). -/
noncomputable def RentConfig.mhp_growth (c : RentConfig) : ℝ :=
  (1 + c.annual_house_price_growth) ^ ((1 : ℝ) / 12)

/-- The mutable state of the rent-scenario loop with its history lists
(lines 130–145 of `app.py`). -/
structure RentState where
  investment_portfolio : ℝ
  current_income : ℝ
  current_expenses : ℝ
  current_rent : ℝ
  current_house_price : ℝ
  cumulative_spent : ℝ
  stop_month : Option ℕ
  months : List ℕ
  house_price_hist : List ℝ
  investment_portfolio_hist : List ℝ
  cumulative_spent_hist : List ℝ

/-- Initial rent-scenario state (lines 130–145): all savings invested,
cumulative spent starts at 0. -/
noncomputable def rentInit (c : RentConfig) : RentState where
  investment_portfolio := c.initial_savings
  current_income := c.monthly_income
  current_expenses := c.monthly_expenses
  current_rent := c.monthly_rent
  current_house_price := c.property_price
  cumulative_spent := 0
  stop_month := none
  months := []
  house_price_hist := []
  investment_portfolio_hist := []
  cumulative_spent_hist := []

/-- One iteration of the rent-scenario loop (lines 147–166), in the source's
order: snapshot, stop-month check, clamped disposable, rent added to
cumulative spend, then the portfolio update and the growth multipliers. -/
noncomputable def rentMonth (c : RentConfig) (s : RentState) (month : ℕ) : RentState :=
  let stop_month' :=
    if s.stop_month = none ∧ s.investment_portfolio ≥ s.current_house_price then some month
    else s.stop_month
  let d := s.current_income - s.current_expenses - s.current_rent
  let monthly_disposable := if d < 0 then 0 else d
  { investment_portfolio := s.investment_portfolio * c.mi_return + monthly_disposable
    current_income := s.current_income * c.mi_growth
    current_expenses := s.current_expenses * c.me_growth
    current_rent := s.current_rent * c.mr_growth
    current_house_price := s.current_house_price * c.mhp_growth
    cumulative_spent := s.cumulative_spent + s.current_rent
    stop_month := stop_month'
    months := s.months ++ [month]
    house_price_hist := s.house_price_hist ++ [s.current_house_price]
    investment_portfolio_hist := s.investment_portfolio_hist ++ [s.investment_portfolio]
    cumulative_spent_hist := s.cumulative_spent_hist ++ [s.cumulative_spent] }

/-- The rent-scenario loop run for the first `n` months. -/
noncomputable def rentRunUpTo (c : RentConfig) (n : ℕ) : RentState :=
  (List.range n).foldl (rentMonth c) (rentInit c)

/-- The full rent-scenario loop. -/
noncomputable def rentRun (c : RentConfig) : RentState :=
  rentRunUpTo c c.max_months

/-- The function `simulate_rent_scenario` (lines 100–168): returns
`stop_month, investment_portfolio, history`; it has no failure path. -/
noncomputable def simulate_rent_scenario (c : RentConfig) :
    Option ℕ × ℝ × RentState :=
  ((rentRun c).stop_month, (rentRun c).investment_portfolio, rentRun c)

/-- The function `format_duration` (lines 170–173): renders a month count as
`"{years} years, {remaining_months} months"` with `years = months // 12` and
`remaining_months = months % 12`. -/
def format_duration (months : ℕ) : String :=
  let years := months / 12
  let remaining_months := months % 12
  toString years ++ " years, " ++ toString remaining_months ++ " months"

/-- The module-level crossover scan (lines 335–339): walk the zipped
`(month, spent_buy, spent_rent)` triples in order and return the first month
where `spent_buy < spent_rent`, else `None`. -/
noncomputable def crossoverScan : List (ℕ × ℝ × ℝ) → Option ℕ
  | [] => none
  | (m, spent_buy, spent_rent) :: rest =>
      if spent_buy < spent_rent then some m else crossoverScan rest

/-- The value `crossover_month` as computed at module level from the two histories:
`zip(history_buy["months"], buy_cum_spent, rent_cum_spent)` scanned for the
first strict `spent_buy < spent_rent`. -/
noncomputable def crossover_month (cb : BuyConfig) (cr : RentConfig) : Option ℕ :=
  crossoverScan ((buyRun cb).months.zip
    ((buyRun cb).cumulative_spent_hist.zip (rentRun cr).cumulative_spent_hist))

/-- The buy-scenario homeownership condition at month `i`, evaluated (as in the
source) on the pre-cashflow state of month `i`:
`investment_portfolio >= outstanding_mortgage`. -/
def buyCondAt (c : BuyConfig) (i : ℕ) : Prop :=
  (buyRunUpTo c i).investment_portfolio ≥ c.outstanding_mortgage

/-- The rent-scenario homeownership condition at month `i`, evaluated on the
pre-cashflow state of month `i`: `investment_portfolio >= current_house_price`. -/
def rentCondAt (c : RentConfig) (i : ℕ) : Prop :=
  (rentRunUpTo c i).investment_portfolio ≥ (rentRunUpTo c i).current_house_price

/-- The end-to-end example configuration of the buy scenario (the app's default
inputs): savings 73000, income 6500, expenses 3000, growth 3%, inflation 2%,
return 5%, price 430000, term 35, rate 4.5%, deposit 10%, owner cost 200,
owner-cost inflation 5%, house growth 2%, horizon 360 months. -/
noncomputable def exampleBuyConfig : BuyConfig where
  initial_savings := 73000
  monthly_income := 6500
  monthly_expenses := 3000
  annual_income_growth := 0.03
  annual_inflation_rate := 0.02
  annual_invest_return := 0.05
  property_price := 430000
  mortgage_term_years := 35
  mortgage_interest_rate := 0.045
  deposit_fraction := 0.10
  owner_cost_initial := 200
  annual_owner_cost_inflation := 0.05
  annual_house_price_growth := 0.02
  max_months := 360

/-- The matching rent-scenario example configuration: rent 1995, rent inflation
3%, same shared inputs and horizon. -/
noncomputable def exampleRentConfig : RentConfig where
  initial_savings := 73000
  monthly_income := 6500
  monthly_expenses := 3000
  annual_income_growth := 0.03
  annual_inflation_rate := 0.02
  annual_invest_return := 0.05
  property_price := 430000
  monthly_rent := 1995
  annual_rent_inflation_rate := 0.03
  annual_house_price_growth := 0.02
  max_months := 360

/-! ### Loop unfolding lemmas -/

lemma buyRunUpTo_zero (c : BuyConfig) : buyRunUpTo c 0 = buyInit c := rfl

lemma buyRunUpTo_succ (c : BuyConfig) (n : ℕ) :
    buyRunUpTo c (n + 1) = buyMonth c (buyRunUpTo c n) n := by
  simp [buyRunUpTo, List.range_succ]

lemma rentRunUpTo_zero (c : RentConfig) : rentRunUpTo c 0 = rentInit c := rfl

lemma rentRunUpTo_succ (c : RentConfig) (n : ℕ) :
    rentRunUpTo c (n + 1) = rentMonth c (rentRunUpTo c n) n := by
  simp [rentRunUpTo, List.range_succ]

/-! ### A generic characterisation of "record the first qualifying index" -/

/-- If an `Option ℕ` evolves from `none` by being set to `n` exactly when the
predicate first holds and is never overwritten afterwards, then at any time `n`
it is `some m` exactly when `m` is the minimal qualifying index below `n`,
and `none` exactly when no index below `n` qualifies. -/
lemma firstHit {p : ℕ → Prop} {s : ℕ → Option ℕ}
    (h0 : s 0 = none)
    (hset : ∀ n, s n = none → p n → s (n + 1) = some n)
    (hkeep : ∀ n, s n = none → ¬ p n → s (n + 1) = none)
    (hstay : ∀ n m, s n = some m → s (n + 1) = some m) :
    ∀ n, (s n = none ↔ ∀ k, k < n → ¬ p k) ∧
      (∀ m, s n = some m ↔ m < n ∧ p m ∧ ∀ k, k < m → ¬ p k) := by
  intro n
  induction n with
  | zero =>
    constructor
    · simp [h0]
    · intro m
      simp [h0]
  | succ n ih =>
    obtain ⟨ihnone, ihsome⟩ := ih
    rcases hcase : s n with _ | m0
    · have hnone : ∀ k, k < n → ¬ p k := ihnone.mp hcase
      by_cases hp : p n
      · have hnext : s (n + 1) = some n := hset n hcase hp
        constructor
        · rw [hnext]
          simp only [reduceCtorEq, false_iff, not_forall]
          exact ⟨n, Nat.lt_succ_self n, not_not_intro hp⟩
        · intro m
          rw [hnext]
          constructor
          · intro hm
            have hnm : n = m := by injection hm
            subst hnm
            exact ⟨Nat.lt_succ_self n, hp, hnone⟩
          · rintro ⟨hmlt, hpm, hmin⟩
            rcases Nat.lt_succ_iff_lt_or_eq.mp hmlt with h | rfl
            · exact absurd hpm (hnone m h)
            · rfl
      · have hnext : s (n + 1) = none := hkeep n hcase hp
        constructor
        · rw [hnext]
          simp only [true_iff]
          intro k hk
          rcases Nat.lt_succ_iff_lt_or_eq.mp hk with h | rfl
          · exact hnone k h
          · exact hp
        · intro m
          rw [hnext]
          simp only [reduceCtorEq, false_iff]
          rintro ⟨hmlt, hpm, _⟩
          rcases Nat.lt_succ_iff_lt_or_eq.mp hmlt with h | rfl
          · exact hnone m h hpm
          · exact hp hpm
    · have hm0 := (ihsome m0).mp hcase
      have hnext : s (n + 1) = some m0 := hstay n m0 hcase
      constructor
      · rw [hnext]
        simp only [reduceCtorEq, false_iff, not_forall]
        exact ⟨m0, Nat.lt_succ_of_lt hm0.1, not_not_intro hm0.2.1⟩
      · intro m
        rw [hnext]
        constructor
        · intro hm
          have hmm : m0 = m := by injection hm
          subst hmm
          exact ⟨Nat.lt_succ_of_lt hm0.1, hm0.2.1, hm0.2.2⟩
        · rintro ⟨hmlt, hpm, hmin⟩
          rcases Nat.lt_trichotomy m m0 with h | rfl | h
          · exact absurd hpm (hm0.2.2 m h)
          · rfl
          · exact absurd hm0.2.1 (hmin m0 h)

/-! ### Projection lemmas for one month of each loop -/

lemma buyMonth_stop_month (c : BuyConfig) (s : BuyState) (month : ℕ) :
    (buyMonth c s month).stop_month =
      if s.stop_month = none ∧ s.investment_portfolio ≥ c.outstanding_mortgage
      then some month else s.stop_month := rfl

lemma buyMonth_investment_portfolio (c : BuyConfig) (s : BuyState) (month : ℕ) :
    (buyMonth c s month).investment_portfolio =
      s.investment_portfolio * c.mi_return +
        (if s.current_income - s.current_expenses - c.outstanding_mortgage * c.m_interest -
            s.current_owner_cost < 0 then 0
         else s.current_income - s.current_expenses - c.outstanding_mortgage * c.m_interest -
            s.current_owner_cost) := rfl

lemma buyMonth_current_income (c : BuyConfig) (s : BuyState) (month : ℕ) :
    (buyMonth c s month).current_income = s.current_income * c.mi_growth := rfl

lemma buyMonth_current_expenses (c : BuyConfig) (s : BuyState) (month : ℕ) :
    (buyMonth c s month).current_expenses = s.current_expenses * c.me_growth := rfl

lemma buyMonth_current_owner_cost (c : BuyConfig) (s : BuyState) (month : ℕ) :
    (buyMonth c s month).current_owner_cost = s.current_owner_cost * c.moc_growth := rfl

lemma buyMonth_current_house_price (c : BuyConfig) (s : BuyState) (month : ℕ) :
    (buyMonth c s month).current_house_price = s.current_house_price * c.mhp_growth := rfl

lemma buyMonth_cumulative_spent (c : BuyConfig) (s : BuyState) (month : ℕ) :
    (buyMonth c s month).cumulative_spent =
      s.cumulative_spent + (c.outstanding_mortgage * c.m_interest + s.current_owner_cost) := rfl

lemma buyMonth_months (c : BuyConfig) (s : BuyState) (month : ℕ) :
    (buyMonth c s month).months = s.months ++ [month] := rfl

lemma buyMonth_house_price_hist (c : BuyConfig) (s : BuyState) (month : ℕ) :
    (buyMonth c s month).house_price_hist =
      s.house_price_hist ++ [s.current_house_price] := rfl

lemma buyMonth_investment_portfolio_hist (c : BuyConfig) (s : BuyState) (month : ℕ) :
    (buyMonth c s month).investment_portfolio_hist =
      s.investment_portfolio_hist ++ [s.investment_portfolio] := rfl

lemma buyMonth_net_wealth_hist (c : BuyConfig) (s : BuyState) (month : ℕ) :
    (buyMonth c s month).net_wealth_hist =
      s.net_wealth_hist ++
        [(s.current_house_price - c.outstanding_mortgage) + s.investment_portfolio] := rfl

lemma buyMonth_cumulative_spent_hist (c : BuyConfig) (s : BuyState) (month : ℕ) :
    (buyMonth c s month).cumulative_spent_hist =
      s.cumulative_spent_hist ++ [s.cumulative_spent] := rfl

lemma rentMonth_stop_month (c : RentConfig) (s : RentState) (month : ℕ) :
    (rentMonth c s month).stop_month =
      if s.stop_month = none ∧ s.investment_portfolio ≥ s.current_house_price
      then some month else s.stop_month := rfl

lemma rentMonth_investment_portfolio (c : RentConfig) (s : RentState) (month : ℕ) :
    (rentMonth c s month).investment_portfolio =
      s.investment_portfolio * c.mi_return +
        (if s.current_income - s.current_expenses - s.current_rent < 0 then 0
         else s.current_income - s.current_expenses - s.current_rent) := rfl

lemma rentMonth_current_income (c : RentConfig) (s : RentState) (month : ℕ) :
    (rentMonth c s month).current_income = s.current_income * c.mi_growth := rfl

lemma rentMonth_current_expenses (c : RentConfig) (s : RentState) (month : ℕ) :
    (rentMonth c s month).current_expenses = s.current_expenses * c.me_growth := rfl

lemma rentMonth_current_rent (c : RentConfig) (s : RentState) (month : ℕ) :
    (rentMonth c s month).current_rent = s.current_rent * c.mr_growth := rfl

lemma rentMonth_current_house_price (c : RentConfig) (s : RentState) (month : ℕ) :
    (rentMonth c s month).current_house_price = s.current_house_price * c.mhp_growth := rfl

lemma rentMonth_cumulative_spent (c : RentConfig) (s : RentState) (month : ℕ) :
    (rentMonth c s month).cumulative_spent = s.cumulative_spent + s.current_rent := rfl

lemma rentMonth_months (c : RentConfig) (s : RentState) (month : ℕ) :
    (rentMonth c s month).months = s.months ++ [month] := rfl

lemma rentMonth_house_price_hist (c : RentConfig) (s : RentState) (month : ℕ) :
    (rentMonth c s month).house_price_hist =
      s.house_price_hist ++ [s.current_house_price] := rfl

lemma rentMonth_investment_portfolio_hist (c : RentConfig) (s : RentState) (month : ℕ) :
    (rentMonth c s month).investment_portfolio_hist =
      s.investment_portfolio_hist ++ [s.investment_portfolio] := rfl

lemma rentMonth_cumulative_spent_hist (c : RentConfig) (s : RentState) (month : ℕ) :
    (rentMonth c s month).cumulative_spent_hist =
      s.cumulative_spent_hist ++ [s.cumulative_spent] := rfl

/-! ### Stop-month characterisation -/

lemma buy_firstHit (c : BuyConfig) :
    ∀ n, ((buyRunUpTo c n).stop_month = none ↔ ∀ k, k < n → ¬ buyCondAt c k) ∧
      (∀ m, (buyRunUpTo c n).stop_month = some m ↔
        m < n ∧ buyCondAt c m ∧ ∀ k, k < m → ¬ buyCondAt c k) := by
  refine firstHit rfl ?_ ?_ ?_
  · intro n hnone hp
    rw [buyRunUpTo_succ, buyMonth_stop_month, if_pos ⟨hnone, hp⟩]
  · intro n hnone hp
    rw [buyRunUpTo_succ, buyMonth_stop_month, if_neg (fun h => hp h.2)]
    exact hnone
  · intro n m hsome
    rw [buyRunUpTo_succ, buyMonth_stop_month,
      if_neg (fun h => by rw [hsome] at h; exact Option.some_ne_none m h.1)]
    exact hsome

lemma rent_firstHit (c : RentConfig) :
    ∀ n, ((rentRunUpTo c n).stop_month = none ↔ ∀ k, k < n → ¬ rentCondAt c k) ∧
      (∀ m, (rentRunUpTo c n).stop_month = some m ↔
        m < n ∧ rentCondAt c m ∧ ∀ k, k < m → ¬ rentCondAt c k) := by
  refine firstHit rfl ?_ ?_ ?_
  · intro n hnone hp
    rw [rentRunUpTo_succ, rentMonth_stop_month, if_pos ⟨hnone, hp⟩]
  · intro n hnone hp
    rw [rentRunUpTo_succ, rentMonth_stop_month, if_neg (fun h => hp h.2)]
    exact hnone
  · intro n m hsome
    rw [rentRunUpTo_succ, rentMonth_stop_month,
      if_neg (fun h => by rw [hsome] at h; exact Option.some_ne_none m h.1)]
    exact hsome

/-! ### Closed forms for the history lists -/

lemma buy_months_eq (c : BuyConfig) (n : ℕ) :
    (buyRunUpTo c n).months = List.range n := by
  induction n with
  | zero => rfl
  | succ n ih => rw [buyRunUpTo_succ, buyMonth_months, ih, List.range_succ]

lemma buy_house_price_hist_eq (c : BuyConfig) (n : ℕ) :
    (buyRunUpTo c n).house_price_hist =
      (List.range n).map (fun i => (buyRunUpTo c i).current_house_price) := by
  induction n with
  | zero => rfl
  | succ n ih =>
    rw [buyRunUpTo_succ, buyMonth_house_price_hist, ih, List.range_succ, List.map_append,
      List.map_singleton]

lemma buy_investment_portfolio_hist_eq (c : BuyConfig) (n : ℕ) :
    (buyRunUpTo c n).investment_portfolio_hist =
      (List.range n).map (fun i => (buyRunUpTo c i).investment_portfolio) := by
  induction n with
  | zero => rfl
  | succ n ih =>
    rw [buyRunUpTo_succ, buyMonth_investment_portfolio_hist, ih, List.range_succ,
      List.map_append, List.map_singleton]

lemma buy_net_wealth_hist_eq (c : BuyConfig) (n : ℕ) :
    (buyRunUpTo c n).net_wealth_hist =
      (List.range n).map (fun i =>
        ((buyRunUpTo c i).current_house_price - c.outstanding_mortgage) +
          (buyRunUpTo c i).investment_portfolio) := by
  induction n with
  | zero => rfl
  | succ n ih =>
    rw [buyRunUpTo_succ, buyMonth_net_wealth_hist, ih, List.range_succ, List.map_append,
      List.map_singleton]

lemma buy_cumulative_spent_hist_eq (c : BuyConfig) (n : ℕ) :
    (buyRunUpTo c n).cumulative_spent_hist =
      (List.range n).map (fun i => (buyRunUpTo c i).cumulative_spent) := by
  induction n with
  | zero => rfl
  | succ n ih =>
    rw [buyRunUpTo_succ, buyMonth_cumulative_spent_hist, ih, List.range_succ,
      List.map_append, List.map_singleton]

lemma rent_months_eq (c : RentConfig) (n : ℕ) :
    (rentRunUpTo c n).months = List.range n := by
  induction n with
  | zero => rfl
  | succ n ih => rw [rentRunUpTo_succ, rentMonth_months, ih, List.range_succ]

lemma rent_house_price_hist_eq (c : RentConfig) (n : ℕ) :
    (rentRunUpTo c n).house_price_hist =
      (List.range n).map (fun i => (rentRunUpTo c i).current_house_price) := by
  induction n with
  | zero => rfl
  | succ n ih =>
    rw [rentRunUpTo_succ, rentMonth_house_price_hist, ih, List.range_succ, List.map_append,
      List.map_singleton]

lemma rent_investment_portfolio_hist_eq (c : RentConfig) (n : ℕ) :
    (rentRunUpTo c n).investment_portfolio_hist =
      (List.range n).map (fun i => (rentRunUpTo c i).investment_portfolio) := by
  induction n with
  | zero => rfl
  | succ n ih =>
    rw [rentRunUpTo_succ, rentMonth_investment_portfolio_hist, ih, List.range_succ,
      List.map_append, List.map_singleton]

lemma rent_cumulative_spent_hist_eq (c : RentConfig) (n : ℕ) :
    (rentRunUpTo c n).cumulative_spent_hist =
      (List.range n).map (fun i => (rentRunUpTo c i).cumulative_spent) := by
  induction n with
  | zero => rfl
  | succ n ih =>
    rw [rentRunUpTo_succ, rentMonth_cumulative_spent_hist, ih, List.range_succ,
      List.map_append, List.map_singleton]

/-- Indexing a `map` over `range` with `getD`. -/
lemma getD_map_range (f : ℕ → ℝ) (n m : ℕ) (hm : m < n) :
    (((List.range n).map f).getD m 0) = f m := by
  rw [List.getD_eq_getElem?_getD, List.getElem?_map, List.getElem?_range hm]
  rfl

/-! ### Closed forms for the scalar state variables -/

lemma buy_current_income_eq (c : BuyConfig) (n : ℕ) :
    (buyRunUpTo c n).current_income = c.monthly_income * c.mi_growth ^ n := by
  induction n with
  | zero => simp [buyRunUpTo_zero, buyInit]
  | succ n ih => rw [buyRunUpTo_succ, buyMonth_current_income, ih, pow_succ]; ring

lemma buy_current_expenses_eq (c : BuyConfig) (n : ℕ) :
    (buyRunUpTo c n).current_expenses = c.monthly_expenses * c.me_growth ^ n := by
  induction n with
  | zero => simp [buyRunUpTo_zero, buyInit]
  | succ n ih => rw [buyRunUpTo_succ, buyMonth_current_expenses, ih, pow_succ]; ring

lemma buy_current_owner_cost_eq (c : BuyConfig) (n : ℕ) :
    (buyRunUpTo c n).current_owner_cost = c.owner_cost_initial * c.moc_growth ^ n := by
  induction n with
  | zero => simp [buyRunUpTo_zero, buyInit]
  | succ n ih => rw [buyRunUpTo_succ, buyMonth_current_owner_cost, ih, pow_succ]; ring

lemma buy_current_house_price_eq (c : BuyConfig) (n : ℕ) :
    (buyRunUpTo c n).current_house_price = c.property_price * c.mhp_growth ^ n := by
  induction n with
  | zero => simp [buyRunUpTo_zero, buyInit]
  | succ n ih => rw [buyRunUpTo_succ, buyMonth_current_house_price, ih, pow_succ]; ring

lemma rent_current_rent_eq (c : RentConfig) (n : ℕ) :
    (rentRunUpTo c n).current_rent = c.monthly_rent * c.mr_growth ^ n := by
  induction n with
  | zero => simp [rentRunUpTo_zero, rentInit]
  | succ n ih => rw [rentRunUpTo_succ, rentMonth_current_rent, ih, pow_succ]; ring

lemma rent_current_house_price_eq (c : RentConfig) (n : ℕ) :
    (rentRunUpTo c n).current_house_price = c.property_price * c.mhp_growth ^ n := by
  induction n with
  | zero => simp [rentRunUpTo_zero, rentInit]
  | succ n ih => rw [rentRunUpTo_succ, rentMonth_current_house_price, ih, pow_succ]; ring

/-- The monthly multiplier `(1 + r) ^ (1/12)` of a real rate is never negative
(for `1 + r < 0` the real power is `exp (log (1+r) * 1/12) * cos (π/12) > 0`). -/
lemma monthly_multiplier_nonneg (r : ℝ) : 0 ≤ (1 + r) ^ ((1 : ℝ) / 12) := by
  rcases le_or_lt 0 (1 + r) with h | h
  · exact Real.rpow_nonneg h _
  · rw [Real.rpow_def_of_neg h]
    have hcos : 0 < Real.cos ((1 : ℝ) / 12 * Real.pi) := by
      apply Real.cos_pos_of_mem_Ioo
      constructor
      · nlinarith [Real.pi_pos]
      · nlinarith [Real.pi_pos]
    exact mul_nonneg (Real.exp_pos _).le hcos.le

/-! ### Crossover scan lemmas -/

lemma crossoverScan_append_none {l₁ : List (ℕ × ℝ × ℝ)} (l₂ : List (ℕ × ℝ × ℝ))
    (h : crossoverScan l₁ = none) : crossoverScan (l₁ ++ l₂) = crossoverScan l₂ := by
  induction l₁ with
  | nil => simp
  | cons x l₁ ih =>
    obtain ⟨m, sb, sr⟩ := x
    rw [List.cons_append, crossoverScan] at *
    by_cases hx : sb < sr
    · rw [if_pos hx] at h
      exact absurd h (Option.some_ne_none m)
    · rw [if_neg hx] at h ⊢
      exact ih h

lemma crossoverScan_append_some {l₁ : List (ℕ × ℝ × ℝ)} (l₂ : List (ℕ × ℝ × ℝ)) {m : ℕ}
    (h : crossoverScan l₁ = some m) : crossoverScan (l₁ ++ l₂) = some m := by
  induction l₁ with
  | nil => simp [crossoverScan] at h
  | cons x l₁ ih =>
    obtain ⟨m', sb, sr⟩ := x
    rw [List.cons_append, crossoverScan] at *
    by_cases hx : sb < sr
    · rw [if_pos hx] at h ⊢
      exact h
    · rw [if_neg hx] at h ⊢
      exact ih h

/-- The scan over the first `n` months of a triple-valued month table is a
"first qualifying index" computation. -/
lemma crossoverScan_map_range (f g : ℕ → ℝ) :
    ∀ n, (crossoverScan ((List.range n).map (fun i => (i, f i, g i))) = none ↔
        ∀ k, k < n → ¬ (f k < g k)) ∧
      (∀ m, crossoverScan ((List.range n).map (fun i => (i, f i, g i))) = some m ↔
        m < n ∧ f m < g m ∧ ∀ k, k < m → ¬ (f k < g k)) := by
  refine firstHit rfl ?_ ?_ ?_
  · intro n hnone hp
    rw [List.range_succ, List.map_append, crossoverScan_append_none _ hnone,
      List.map_singleton, crossoverScan, if_pos hp]
  · intro n hnone hp
    rw [List.range_succ, List.map_append, crossoverScan_append_none _ hnone,
      List.map_singleton, crossoverScan, if_neg hp]
    rfl
  · intro n m hsome
    rw [List.range_succ, List.map_append, crossoverScan_append_some _ hsome]

/-- Zipping a list of months with its two mapped copies produces the
month-indexed table of triples. -/
lemma zip_map_triple (f g : ℕ → ℝ) (l : List ℕ) :
    l.zip ((l.map f).zip (l.map g)) = l.map (fun i => (i, f i, g i)) := by
  induction l with
  | nil => rfl
  | cons a l ih => simp [ih]

/-- Under equal horizons, the module-level crossover computation is the scan of
the month-indexed table of the two cumulative-spend snapshot functions. -/
lemma crossover_month_eq (cb : BuyConfig) (cr : RentConfig)
    (h : cb.max_months = cr.max_months) :
    crossover_month cb cr = crossoverScan ((List.range cb.max_months).map
      (fun i => (i, (buyRunUpTo cb i).cumulative_spent,
        (rentRunUpTo cr i).cumulative_spent))) := by
  unfold crossover_month buyRun rentRun
  rw [buy_months_eq, buy_cumulative_spent_hist_eq, rent_cumulative_spent_hist_eq, ← h,
    zip_map_triple]

/-- Clamping a negative value to zero is `max 0`. -/
lemma ite_neg_clamp (d : ℝ) : (if d < 0 then (0 : ℝ) else d) = max 0 d := by
  split_ifs with hd
  · exact (max_eq_left hd.le).symm
  · exact (max_eq_right (not_lt.mp hd)).symm

/-- A recorded stop month survives one more buy-loop iteration unchanged. -/
lemma buy_stop_stay (c : BuyConfig) (n m : ℕ)
    (hsome : (buyRunUpTo c n).stop_month = some m) :
    (buyRunUpTo c (n + 1)).stop_month = some m := by
  rw [buyRunUpTo_succ, buyMonth_stop_month,
    if_neg (fun h => by rw [hsome] at h; exact Option.some_ne_none m h.1)]
  exact hsome

/-- A recorded stop month survives one more rent-loop iteration unchanged. -/
lemma rent_stop_stay (c : RentConfig) (n m : ℕ)
    (hsome : (rentRunUpTo c n).stop_month = some m) :
    (rentRunUpTo c (n + 1)).stop_month = some m := by
  rw [rentRunUpTo_succ, rentMonth_stop_month,
    if_neg (fun h => by rw [hsome] at h; exact Option.some_ne_none m h.1)]
  exact hsome

/-! ### Claim theorems -/

/-- C1: in `simulate_buy_scenario`, every month's state update follows the
per-month equations: disposable = income − expenses − interest − owner cost,
clamped below at 0 (so it is never negative and can never draw the portfolio
down), the new portfolio is portfolio × monthly invest multiplier + clamped
disposable, and income, expenses, owner cost and house price are each
multiplied by their monthly multiplier only afterwards, so the cash flows of
month `m` use the month-`m` values. -/
theorem C1_buy_monthly_update (c : BuyConfig) (m : ℕ) :
    0 ≤ max 0 ((buyRunUpTo c m).current_income - (buyRunUpTo c m).current_expenses -
        c.outstanding_mortgage * c.m_interest - (buyRunUpTo c m).current_owner_cost) ∧
    (buyRunUpTo c (m + 1)).investment_portfolio =
      (buyRunUpTo c m).investment_portfolio * c.mi_return +
        max 0 ((buyRunUpTo c m).current_income - (buyRunUpTo c m).current_expenses -
          c.outstanding_mortgage * c.m_interest - (buyRunUpTo c m).current_owner_cost) ∧
    (buyRunUpTo c (m + 1)).current_income = (buyRunUpTo c m).current_income * c.mi_growth ∧
    (buyRunUpTo c (m + 1)).current_expenses =
      (buyRunUpTo c m).current_expenses * c.me_growth ∧
    (buyRunUpTo c (m + 1)).current_owner_cost =
      (buyRunUpTo c m).current_owner_cost * c.moc_growth ∧
    (buyRunUpTo c (m + 1)).current_house_price =
      (buyRunUpTo c m).current_house_price * c.mhp_growth := by
  refine ⟨le_max_left 0 _, ?_, ?_, ?_, ?_, ?_⟩
  · rw [buyRunUpTo_succ, buyMonth_investment_portfolio, ite_neg_clamp]
  · rw [buyRunUpTo_succ, buyMonth_current_income]
  · rw [buyRunUpTo_succ, buyMonth_current_expenses]
  · rw [buyRunUpTo_succ, buyMonth_current_owner_cost]
  · rw [buyRunUpTo_succ, buyMonth_current_house_price]

/-- C4: every cost-growth and return rate is converted to the monthly
multiplicative factor `(1+r)^(1/12)`, while the monthly mortgage interest
charge is `r/12` — simple division, not compounded — applied every month as a
flat charge on the fixed original principal
`property_price * (1 - deposit_fraction)`. -/
theorem C4_rate_conversion (cb : BuyConfig) (cr : RentConfig) (m : ℕ) :
    cb.mi_growth = (1 + cb.annual_income_growth) ^ ((1 : ℝ) / 12) ∧
    cb.me_growth = (1 + cb.annual_inflation_rate) ^ ((1 : ℝ) / 12) ∧
    cb.mi_return = (1 + cb.annual_invest_return) ^ ((1 : ℝ) / 12) ∧
    cb.moc_growth = (1 + cb.annual_owner_cost_inflation) ^ ((1 : ℝ) / 12) ∧
    cb.mhp_growth = (1 + cb.annual_house_price_growth) ^ ((1 : ℝ) / 12) ∧
    cr.mi_growth = (1 + cr.annual_income_growth) ^ ((1 : ℝ) / 12) ∧
    cr.me_growth = (1 + cr.annual_inflation_rate) ^ ((1 : ℝ) / 12) ∧
    cr.mi_return = (1 + cr.annual_invest_return) ^ ((1 : ℝ) / 12) ∧
    cr.mr_growth = (1 + cr.annual_rent_inflation_rate) ^ ((1 : ℝ) / 12) ∧
    cr.mhp_growth = (1 + cr.annual_house_price_growth) ^ ((1 : ℝ) / 12) ∧
    cb.m_interest = cb.mortgage_interest_rate / 12 ∧
    (buyRunUpTo cb (m + 1)).cumulative_spent =
      (buyRunUpTo cb m).cumulative_spent +
        (cb.property_price * (1 - cb.deposit_fraction) * (cb.mortgage_interest_rate / 12) +
          (buyRunUpTo cb m).current_owner_cost) := by
  refine ⟨rfl, rfl, rfl, rfl, rfl, rfl, rfl, rfl, rfl, rfl, rfl, ?_⟩
  rw [buyRunUpTo_succ, buyMonth_cumulative_spent, BuyConfig.outstanding_mortgage,
    BuyConfig.m_interest]

/-- C7: each simulator's months series is exactly `0, 1, …, max_months-1` in
order (hence of length `max_months`), and every other series component has the
same length. -/
theorem C7_series_shape (cb : BuyConfig) (cr : RentConfig) :
    (buyRun cb).months = List.range cb.max_months ∧
    (buyRun cb).months.length = cb.max_months ∧
    (buyRun cb).house_price_hist.length = cb.max_months ∧
    (buyRun cb).investment_portfolio_hist.length = cb.max_months ∧
    (buyRun cb).net_wealth_hist.length = cb.max_months ∧
    (buyRun cb).cumulative_spent_hist.length = cb.max_months ∧
    (rentRun cr).months = List.range cr.max_months ∧
    (rentRun cr).months.length = cr.max_months ∧
    (rentRun cr).house_price_hist.length = cr.max_months ∧
    (rentRun cr).investment_portfolio_hist.length = cr.max_months ∧
    (rentRun cr).cumulative_spent_hist.length = cr.max_months := by
  refine ⟨buy_months_eq cb _, ?_, ?_, ?_, ?_, ?_, rent_months_eq cr _, ?_, ?_, ?_, ?_⟩
  · rw [buyRun, buy_months_eq, List.length_range]
  · rw [buyRun, buy_house_price_hist_eq, List.length_map, List.length_range]
  · rw [buyRun, buy_investment_portfolio_hist_eq, List.length_map, List.length_range]
  · rw [buyRun, buy_net_wealth_hist_eq, List.length_map, List.length_range]
  · rw [buyRun, buy_cumulative_spent_hist_eq, List.length_map, List.length_range]
  · rw [rentRun, rent_months_eq, List.length_range]
  · rw [rentRun, rent_house_price_hist_eq, List.length_map, List.length_range]
  · rw [rentRun, rent_investment_portfolio_hist_eq, List.length_map, List.length_range]
  · rw [rentRun, rent_cumulative_spent_hist_eq, List.length_map, List.length_range]

/-- C8: `format_duration` renders years = months / 12 and
remaining months = months % 12 (both natural numbers); in particular it maps
0 to "0 years, 0 months", 13 to years 1 / months 1, and 360 to
years 30 / months 0. -/
theorem C8_format_duration (months : ℕ) :
    format_duration months =
      toString (months / 12) ++ " years, " ++ toString (months % 12) ++ " months" ∧
    format_duration 0 = "0 years, 0 months" ∧
    format_duration 13 = "1 years, 1 months" ∧
    format_duration 360 = "30 years, 0 months" ∧
    (13 : ℕ) / 12 = 1 ∧ (13 : ℕ) % 12 = 1 ∧ (360 : ℕ) / 12 = 30 ∧ (360 : ℕ) % 12 = 0 :=
  ⟨rfl, rfl, rfl, rfl, rfl, rfl, rfl, rfl⟩

/-- C9: `mortgage_term_years` is accepted as an input but never influences the
computation: changing it alone leaves the entire result of
`simulate_buy_scenario` (error signal, stop month, final portfolio, and the
whole history) unchanged. -/
theorem C9_mortgage_term_years_unused (c : BuyConfig) (t : ℝ) :
    simulate_buy_scenario { c with mortgage_term_years := t } = simulate_buy_scenario c :=
  rfl

/-- C2: for each simulator, `stop_month = some m` holds exactly when `m` is the
unique minimal month index at which the scenario's homeownership condition
holds on the pre-cashflow snapshot of that month (the snapshot recorded in the
returned series), `stop_month = none` exactly when no month qualifies within
the horizon, and a recorded stop month is never changed by later iterations. -/
theorem C2_stop_month_first_qualifying (cb : BuyConfig) (cr : RentConfig) :
    (∀ m, (buyRun cb).stop_month = some m ↔
      m < cb.max_months ∧ buyCondAt cb m ∧ ∀ k, k < m → ¬ buyCondAt cb k) ∧
    ((buyRun cb).stop_month = none ↔ ∀ k, k < cb.max_months → ¬ buyCondAt cb k) ∧
    (∀ m, m < cb.max_months → (buyCondAt cb m ↔
      cb.outstanding_mortgage ≤ (buyRun cb).investment_portfolio_hist.getD m 0)) ∧
    (∀ n m, (buyRunUpTo cb n).stop_month = some m →
      (buyRunUpTo cb (n + 1)).stop_month = some m) ∧
    (∀ m, (rentRun cr).stop_month = some m ↔
      m < cr.max_months ∧ rentCondAt cr m ∧ ∀ k, k < m → ¬ rentCondAt cr k) ∧
    ((rentRun cr).stop_month = none ↔ ∀ k, k < cr.max_months → ¬ rentCondAt cr k) ∧
    (∀ m, m < cr.max_months → (rentCondAt cr m ↔
      (rentRun cr).house_price_hist.getD m 0 ≤
        (rentRun cr).investment_portfolio_hist.getD m 0)) ∧
    (∀ n m, (rentRunUpTo cr n).stop_month = some m →
      (rentRunUpTo cr (n + 1)).stop_month = some m) := by
  obtain ⟨hbn, hbs⟩ := buy_firstHit cb cb.max_months
  obtain ⟨hrn, hrs⟩ := rent_firstHit cr cr.max_months
  refine ⟨hbs, hbn, ?_, buy_stop_stay cb, hrs, hrn, ?_, rent_stop_stay cr⟩
  · intro m hm
    rw [buyRun, buy_investment_portfolio_hist_eq, getD_map_range _ _ _ hm]
    exact Iff.rfl
  · intro m hm
    rw [rentRun, rent_investment_portfolio_hist_eq, getD_map_range _ _ _ hm,
      rent_house_price_hist_eq, getD_map_range _ _ _ hm]
    exact Iff.rfl

/-- C3: `simulate_buy_scenario` signals the insufficient-deposit error — an
explicit no-result, with no partial or zeroed series — if and only if
`deposit_fraction * property_price > initial_savings`; whenever the deposit is
at most the savings (equality included) it returns the full simulation result. -/
theorem C3_insufficient_deposit_iff (c : BuyConfig) :
    (simulate_buy_scenario c = none ↔
      c.deposit_fraction * c.property_price > c.initial_savings) ∧
    (simulate_buy_scenario c =
        some ((buyRun c).stop_month, (buyRun c).investment_portfolio, buyRun c) ↔
      c.deposit_fraction * c.property_price ≤ c.initial_savings) := by
  unfold simulate_buy_scenario
  split_ifs with h
  · rw [BuyConfig.deposit_amount] at h
    exact ⟨by simp [gt_iff_lt, h], by simp [h.not_le]⟩
  · rw [BuyConfig.deposit_amount] at h
    exact ⟨by simp [gt_iff_lt, h], by simp [not_lt.mp h]⟩

/-- C5: given equal horizons, the crossover month is the first month index, in
increasing order, at which the buy scenario's cumulative spend is strictly
below the rent scenario's; if no month qualifies, no crossover is reported.
The compared snapshot functions agree with the entries of the returned
cumulative-spend series. -/
theorem C5_crossover_first (cb : BuyConfig) (cr : RentConfig)
    (h : cb.max_months = cr.max_months) :
    (∀ m, crossover_month cb cr = some m ↔
      m < cb.max_months ∧
        (buyRunUpTo cb m).cumulative_spent < (rentRunUpTo cr m).cumulative_spent ∧
        ∀ k, k < m → ¬ ((buyRunUpTo cb k).cumulative_spent <
          (rentRunUpTo cr k).cumulative_spent)) ∧
    (crossover_month cb cr = none ↔ ∀ k, k < cb.max_months →
      ¬ ((buyRunUpTo cb k).cumulative_spent < (rentRunUpTo cr k).cumulative_spent)) ∧
    (∀ k, k < cb.max_months →
      (buyRun cb).cumulative_spent_hist.getD k 0 = (buyRunUpTo cb k).cumulative_spent ∧
      (rentRun cr).cumulative_spent_hist.getD k 0 = (rentRunUpTo cr k).cumulative_spent) := by
  obtain ⟨hnone, hsome⟩ := crossoverScan_map_range
    (fun i => (buyRunUpTo cb i).cumulative_spent)
    (fun i => (rentRunUpTo cr i).cumulative_spent) cb.max_months
  rw [crossover_month_eq cb cr h]
  refine ⟨hsome, hnone, ?_⟩
  intro k hk
  constructor
  · rw [buyRun, buy_cumulative_spent_hist_eq, getD_map_range _ _ _ hk]
  · rw [rentRun, rent_cumulative_spent_hist_eq, getD_map_range _ _ _ (h ▸ hk)]

/-- C6: when the monetary inputs (deposit, interest charge, owner cost, rent)
are non-negative, each scenario's cumulative-spend series is non-decreasing in
the month index. -/
theorem C6_cumulative_spent_monotone (cb : BuyConfig) (cr : RentConfig)
    (hdep : 0 ≤ cb.deposit_amount)
    (hint : 0 ≤ cb.outstanding_mortgage * cb.m_interest)
    (hoc : 0 ≤ cb.owner_cost_initial)
    (hrent : 0 ≤ cr.monthly_rent)
    (m : ℕ) (hb : m + 1 < cb.max_months) (hr : m + 1 < cr.max_months) :
    (buyRun cb).cumulative_spent_hist.getD m 0 ≤
      (buyRun cb).cumulative_spent_hist.getD (m + 1) 0 ∧
    (rentRun cr).cumulative_spent_hist.getD m 0 ≤
      (rentRun cr).cumulative_spent_hist.getD (m + 1) 0 := by
  constructor
  · rw [buyRun, buy_cumulative_spent_hist_eq, getD_map_range _ _ _ (Nat.lt_of_succ_lt hb),
      getD_map_range _ _ _ hb, buyRunUpTo_succ, buyMonth_cumulative_spent]
    have hocm : 0 ≤ (buyRunUpTo cb m).current_owner_cost := by
      rw [buy_current_owner_cost_eq]
      exact mul_nonneg hoc (pow_nonneg (monthly_multiplier_nonneg _) m)
    linarith
  · rw [rentRun, rent_cumulative_spent_hist_eq, getD_map_range _ _ _ (Nat.lt_of_succ_lt hr),
      getD_map_range _ _ _ hr, rentRunUpTo_succ, rentMonth_cumulative_spent]
    have hrm : 0 ≤ (rentRunUpTo cr m).current_rent := by
      rw [rent_current_rent_eq]
      exact mul_nonneg hrent (pow_nonneg (monthly_multiplier_nonneg _) m)
    linarith

/-- C10: for buy and rent configurations sharing the property price, the house
price growth rate and the horizon, the two house-price series are identical,
and entry `m` equals `property_price * ((1+g)^(1/12))^m`. -/
theorem C10_house_price_series (cb : BuyConfig) (cr : RentConfig)
    (hp : cb.property_price = cr.property_price)
    (hg : cb.annual_house_price_growth = cr.annual_house_price_growth)
    (hm : cb.max_months = cr.max_months) :
    (buyRun cb).house_price_hist = (rentRun cr).house_price_hist ∧
    ∀ m, m < cb.max_months →
      (buyRun cb).house_price_hist.getD m 0 =
        cb.property_price * ((1 + cb.annual_house_price_growth) ^ ((1 : ℝ) / 12)) ^ m := by
  constructor
  · rw [buyRun, rentRun, buy_house_price_hist_eq, rent_house_price_hist_eq, ← hm]
    refine List.map_congr_left ?_
    intro i _
    rw [buy_current_house_price_eq, rent_current_house_price_eq, hp,
      BuyConfig.mhp_growth, RentConfig.mhp_growth, hg]
  · intro m hmm
    rw [buyRun, buy_house_price_hist_eq, getD_map_range _ _ _ hmm,
      buy_current_house_price_eq]
    rfl

/-- Witness for C5: the equal-horizon hypothesis holds at the example
configurations (both 360 months) and the crossover characterisation follows. -/
theorem C5_crossover_first_witness :
    exampleBuyConfig.max_months = exampleRentConfig.max_months ∧
    (crossover_month exampleBuyConfig exampleRentConfig = none ↔
      ∀ k, k < exampleBuyConfig.max_months →
        ¬ ((buyRunUpTo exampleBuyConfig k).cumulative_spent <
          (rentRunUpTo exampleRentConfig k).cumulative_spent)) :=
  ⟨rfl, (C5_crossover_first exampleBuyConfig exampleRentConfig rfl).2.1⟩

/-- Witness for C6: the example configurations have non-negative deposit,
interest charge, owner cost and rent, the horizon exceeds month 1, and
cumulative spend is non-decreasing from month 0 to month 1. -/
theorem C6_cumulative_spent_monotone_witness :
    (0 ≤ exampleBuyConfig.deposit_amount ∧
      0 ≤ exampleBuyConfig.outstanding_mortgage * exampleBuyConfig.m_interest ∧
      0 ≤ exampleBuyConfig.owner_cost_initial ∧
      0 ≤ exampleRentConfig.monthly_rent ∧
      0 + 1 < exampleBuyConfig.max_months ∧ 0 + 1 < exampleRentConfig.max_months) ∧
    ((buyRun exampleBuyConfig).cumulative_spent_hist.getD 0 0 ≤
      (buyRun exampleBuyConfig).cumulative_spent_hist.getD (0 + 1) 0 ∧
      (rentRun exampleRentConfig).cumulative_spent_hist.getD 0 0 ≤
      (rentRun exampleRentConfig).cumulative_spent_hist.getD (0 + 1) 0) := by
  have h1 : 0 ≤ exampleBuyConfig.deposit_amount := by
    norm_num [BuyConfig.deposit_amount, exampleBuyConfig]
  have h2 : 0 ≤ exampleBuyConfig.outstanding_mortgage * exampleBuyConfig.m_interest := by
    norm_num [BuyConfig.outstanding_mortgage, BuyConfig.m_interest, exampleBuyConfig]
  have h3 : 0 ≤ exampleBuyConfig.owner_cost_initial := by
    norm_num [exampleBuyConfig]
  have h4 : 0 ≤ exampleRentConfig.monthly_rent := by
    norm_num [exampleRentConfig]
  have h5 : 0 + 1 < exampleBuyConfig.max_months := by
    norm_num [exampleBuyConfig]
  have h6 : 0 + 1 < exampleRentConfig.max_months := by
    norm_num [exampleRentConfig]
  exact ⟨⟨h1, h2, h3, h4, h5, h6⟩,
    C6_cumulative_spent_monotone exampleBuyConfig exampleRentConfig h1 h2 h3 h4 0 h5 h6⟩

/-- Witness for C10: the example configurations share property price, growth
rate and horizon, and their house-price series coincide. -/
theorem C10_house_price_series_witness :
    (exampleBuyConfig.property_price = exampleRentConfig.property_price ∧
      exampleBuyConfig.annual_house_price_growth =
        exampleRentConfig.annual_house_price_growth ∧
      exampleBuyConfig.max_months = exampleRentConfig.max_months) ∧
    (buyRun exampleBuyConfig).house_price_hist =
      (rentRun exampleRentConfig).house_price_hist :=
  ⟨⟨rfl, rfl, rfl⟩,
    (C10_house_price_series exampleBuyConfig exampleRentConfig rfl rfl rfl).1⟩

end BuyVsRent
